import Mathlib

set_option maxRecDepth 40000

/-!
Shallow embedding of the strategy engine in `src/noddle_trader/strategy.py`
(class `ICTMSSStrategy`).  Prices and timestamps are modelled as rationals,
candle series as lists ordered oldest first (pandas DataFrames indexed by
time), and the mutable instance state (`fvg_memoria`, `ifvg_memoria`,
`ultimo_sesgo_valido`) as an explicit state record threaded through the
functions.  A candle's `time` field holds its timestamp already converted to
the New-York time-of-day used by the session filter.
-/

namespace NoddleTrader

/-- One OHLC candle row.  Only the fields the engine reads are embedded
(`open` and `volume` are never consulted by the strategy code). -/
structure Vela where
  time : ℚ
  high : ℚ
  low : ℚ
  close : ℚ
  deriving DecidableEq, Repr

/-- Market bias label: `alcista` = bullish, `bajista` = bearish.  The
undetermined case is `Option.none` at use sites, mirroring Python's `None`. -/
inductive Sesgo where
  | alcista
  | bajista
  deriving DecidableEq, Repr

/-- Trade direction of a gap or signal. -/
inductive Direccion where
  | compra
  | venta
  deriving DecidableEq, Repr

/-- Gap kind discriminator: plain fair-value gap or inversion gap. -/
inductive TipoGap where
  | fvg
  | ifvg
  deriving DecidableEq, Repr

/-- A fair-value gap record as built in `_buscar_fvg_y_entrada_m1`. -/
structure FVG where
  direccion : Direccion
  fvg_alto : ℚ
  fvg_bajo : ℚ
  stop_loss : ℚ
  indice : ℕ
  timestamp : ℚ
  tipo : TipoGap
  deriving DecidableEq, Repr

/-- Engine configuration (the `config` dict read in `__init__`). -/
structure Config where
  TOLERANCIA_MITIGACION : ℚ
  CUENTA_INICIAL : ℚ
  RIESGO_POR_OPERACION : ℚ
  RR : ℚ
  VALOR_POR_PIP : ℚ
  MIN_VELAS_M15 : ℕ
  MIN_VELAS_M1 : ℕ
  USAR_FILTRO_SESION : Bool
  SESION_INICIO : ℚ
  SESION_FIN : ℚ
  ATR_PERIODO : ℕ
  FVG_MIN_PCT_ATR : ℚ
  UMBRAL_SESION : ℚ
  RANGO_MINIMO_VELA : ℚ
  deriving DecidableEq, Repr

/-- The mutable engine-instance state touched by `analizar_mercado`. -/
structure Estado where
  fvg_memoria : List FVG
  ifvg_memoria : List FVG
  ultimo_sesgo_valido : Option Sesgo
  deriving DecidableEq, Repr

/-- `_filtrar_sesion_ny`: keep only candles whose New-York time-of-day lies
in the configured closed session window; identity when the filter is off. -/
def filtrarSesionNy (cfg : Config) (df : List Vela) : List Vela :=
  if cfg.USAR_FILTRO_SESION then
    df.filter (fun v => decide (cfg.SESION_INICIO ≤ v.time ∧ v.time ≤ cfg.SESION_FIN))
  else df

/-- Maximum of the `high` fields (`ultimas["high"].max()`); 0 on an empty
window, which in the source would be the raising `tail(0)` edge case. -/
def maxHigh : List Vela → ℚ
  | [] => 0
  | v :: vs => vs.foldl (fun a w => max a w.high) v.high

/-- Minimum of the `low` fields (`ultimas["low"].min()`). -/
def minLow : List Vela → ℚ
  | [] => 0
  | v :: vs => vs.foldl (fun a w => min a w.low) v.low

/-- Close of the last candle (`.iloc[-1]["close"]`); 0 on empty. -/
def lastClose (df : List Vela) : ℚ :=
  (df.getLast?).elim 0 Vela.close

/-- Close of the first candle (`.iloc[0]["close"]`); 0 on empty. -/
def firstClose (df : List Vela) : ℚ :=
  (df.head?).elim 0 Vela.close

/-- `df.tail(n)` of pandas: the trailing `n` rows. -/
def colaVentana (n : ℕ) (df : List Vela) : List Vela :=
  df.drop (df.length - n)

/-- `_determinar_sesgo_m15`: returns (bias, reference level, updated
`ultimo_sesgo_valido`).  The audit dictionary is not modelled; the state
write `self.ultimo_sesgo_valido = ...` is returned as the third component. -/
def determinarSesgoM15 (cfg : Config) (ultimo : Option Sesgo) (df_m15 : List Vela) :
    Option Sesgo × Option ℚ × Option Sesgo :=
  if df_m15.length < cfg.MIN_VELAS_M15 then (none, none, ultimo)
  else
    let ultimas := colaVentana cfg.MIN_VELAS_M15 df_m15
    let high := maxHigh ultimas
    let low := minLow ultimas
    let precio := lastClose ultimas
    if high < precio then (some .alcista, some high, some .alcista)
    else if precio < low then (some .bajista, some low, some .bajista)
    else if high - cfg.UMBRAL_SESION < precio then (some .alcista, some high, some .alcista)
    else if precio < low + cfg.UMBRAL_SESION then (some .bajista, some low, some .bajista)
    else
      let tendencia := lastClose ultimas - firstClose ultimas
      if 0 < tendencia then (some .alcista, some high, some .alcista)
      else if tendencia < 0 then (some .bajista, some low, some .bajista)
      else
        match ultimo with
        | some s => (some s, none, some s)
        | none => (none, none, none)

/-- Per-row true range, row `i` of `_calcular_atr`:
`max(high-low, |high-prev close|, |low-prev close|)`; for the first row the
shifted terms are NaN and pandas' row-max ignores them, leaving `high-low`. -/
def trueRange (df : List Vela) (i : ℕ) : ℚ :=
  match df[i]? with
  | none => 0
  | some v =>
    if i = 0 then v.high - v.low
    else
      match df[i-1]? with
      | none => v.high - v.low
      | some p => max (v.high - v.low) (max |v.high - p.close| |v.low - p.close|)

/-- `tr.rolling(periodo).mean().fillna(tr)` at row `i`: the trailing mean of
`periodo` true ranges once that much history exists, else the raw true range. -/
def atrEn (cfg : Config) (df : List Vela) (i : ℕ) : ℚ :=
  if 1 ≤ cfg.ATR_PERIODO ∧ cfg.ATR_PERIODO ≤ i + 1 then
    (((List.range cfg.ATR_PERIODO).map (fun k => trueRange df (i + 1 - cfg.ATR_PERIODO + k))).sum)
      / (cfg.ATR_PERIODO : ℚ)
  else trueRange df i

/-- `atr_series.iloc[-1] if not atr_series.empty else 0`. -/
def atrActual (cfg : Config) (df : List Vela) : ℚ :=
  if df.isEmpty then 0 else atrEn cfg df (df.length - 1)

/-- `_vela_valida`: the candle's range meets the configured minimum. -/
def velaValida (cfg : Config) (v : Vela) : Bool :=
  decide (cfg.RANGO_MINIMO_VELA ≤ v.high - v.low)

/-- `_fvg_valido`: gap width at least `ATR × FVG_MIN_PCT_ATR`. -/
def fvgValido (cfg : Config) (g : FVG) (atr : ℚ) : Bool :=
  decide (atr * cfg.FVG_MIN_PCT_ATR ≤ |g.fvg_alto - g.fvg_bajo|)

/-- `_calcular_ce`: the gap midpoint (consequent encroachment). -/
def calcularCe (g : FVG) : ℚ :=
  (g.fvg_alto + g.fvg_bajo) / 2

/-- Candle `time` at index `i`, for the `timestamp` field of a gap. -/
def tiempoEn (df : List Vela) (i : ℕ) : ℚ :=
  (df[i]?).elim 0 Vela.time

/-- The candidate `fvg_info` built by the scan body at index `i` (triple
`i-2, i-1, i`), before the volatility filter. -/
def candidatoEn (cfg : Config) (sesgo : Sesgo) (df : List Vela) (i : ℕ) : Option FVG :=
  match df[i-2]?, df[i-1]?, df[i]? with
  | some vPrevia, some vFvg, some vActual =>
    if velaValida cfg vPrevia && velaValida cfg vFvg && velaValida cfg vActual then
      match sesgo with
      | .alcista =>
        if vPrevia.high < vActual.low then
          some { direccion := .compra, fvg_alto := vActual.low,
                 fvg_bajo := vPrevia.high, stop_loss := vFvg.low,
                 indice := i, timestamp := tiempoEn df i, tipo := .fvg }
        else none
      | .bajista =>
        if vActual.high < vPrevia.low then
          some { direccion := .venta, fvg_alto := vPrevia.low,
                 fvg_bajo := vActual.high, stop_loss := vFvg.high,
                 indice := i, timestamp := tiempoEn df i, tipo := .fvg }
        else none
    else none
  | _, _, _ => none

/-- The full loop body at index `i`: the candidate is appended to
`fvg_detectados` only when `_fvg_valido` accepts it against the current ATR. -/
def detectarEn (cfg : Config) (sesgo : Sesgo) (df : List Vela) (atr : ℚ) (i : ℕ) :
    Option FVG :=
  match candidatoEn cfg sesgo df i with
  | some g => if fvgValido cfg g atr then some g else none
  | none => none

/-- The scan indices `range(len(df)-5, 2, -1)`: `len-5, len-6, ..., 3`. -/
def indicesDeteccion (n : ℕ) : List ℕ :=
  (List.range (n - 7)).map (fun k => n - 5 - k)

/-- The full FVG detection scan (`fvg_detectados`, most recent first). -/
def detectarFvgs (cfg : Config) (sesgo : Sesgo) (df : List Vela) (atr : ℚ) : List FVG :=
  (indicesDeteccion df.length).filterMap (detectarEn cfg sesgo df atr)

/-- `_detectar_inversion_fvg`: some candle after the gap's source index closes
through the opposite boundary. -/
def detectarInversionFvg (df : List Vela) (g : FVG) : Bool :=
  (df.drop (g.indice + 1)).any (fun v =>
    match g.direccion with
    | .compra => decide (v.close < g.fvg_bajo)
    | .venta => decide (g.fvg_alto < v.close))

/-- `"compra" if direccion == "venta" else "venta"`. -/
def invertirDireccion : Direccion → Direccion
  | .compra => .venta
  | .venta => .compra

/-- The `ifvg_info` copy: kind set to `ifvg`, direction flipped. -/
def aIfvg (g : FVG) : FVG :=
  { g with tipo := .ifvg, direccion := invertirDireccion g.direccion }

/-- A partial entry signal as built by `_crear_señal`. -/
structure Senal where
  direccion : Direccion
  precio_entrada : ℚ
  stop_loss : ℚ
  timestamp : ℚ
  tipo_oportunidad : TipoGap
  deriving DecidableEq, Repr

/-- `_crear_señal`. -/
def crearSenal (reciente : Vela) (oportunidad : FVG) (direccion : Direccion) : Senal :=
  { direccion := direccion, precio_entrada := reciente.close,
    stop_loss := oportunidad.stop_loss, timestamp := reciente.time,
    tipo_oportunidad := oportunidad.tipo }

/-- The entry test of the evaluation loop: full mitigation, CE touch, or
proximity, by the opportunity's direction. -/
def coincideEntrada (cfg : Config) (reciente : Vela) (g : FVG) : Bool :=
  let ce := calcularCe g
  match g.direccion with
  | .compra =>
    decide (reciente.low ≤ g.fvg_alto ∧ g.fvg_bajo < reciente.close)
    || decide (reciente.low ≤ ce ∧ ce < reciente.close)
    || decide (|reciente.low - g.fvg_alto| ≤ cfg.TOLERANCIA_MITIGACION)
  | .venta =>
    decide (g.fvg_bajo ≤ reciente.high ∧ reciente.close < g.fvg_alto)
    || decide (ce ≤ reciente.high ∧ reciente.close < ce)
    || decide (|reciente.high - g.fvg_bajo| ≤ cfg.TOLERANCIA_MITIGACION)

/-- The entry-evaluation loop over `todas_oportunidades`: first opportunity
whose mitigation/CE/proximity test fires produces the signal; the loop
returns out of the function at that point. -/
def evaluarEntrada (cfg : Config) (reciente : Vela) : List FVG → Option Senal
  | [] => none
  | g :: rest =>
    if coincideEntrada cfg reciente g then some (crearSenal reciente g g.direccion)
    else evaluarEntrada cfg reciente rest

/-- Default candle used only to name `df.iloc[-1]` under the `len ≥ 5` guard
(the list is then provably nonempty, so the default is never produced). -/
def velaCero : Vela := { time := 0, high := 0, low := 0, close := 0 }

/-- `_buscar_fvg_y_entrada_m1`: detection, inversion check, the two memory
updates, and the entry evaluation.  Returns the optional partial signal and
the engine state after the memory writes. -/
def buscarFvgYEntradaM1 (cfg : Config) (st : Estado) (df_m1 : List Vela) (sesgo : Sesgo) :
    Option Senal × Estado :=
  let atr := atrActual cfg df_m1
  if df_m1.length < 5 then (none, st)
  else
    let reciente := (df_m1.getLast?).getD velaCero
    let fvgDetectados := detectarFvgs cfg sesgo df_m1 atr
    let ifvgDetectados := (st.fvg_memoria.filter (fun g => detectarInversionFvg df_m1 g)).map aIfvg
    let fvgMemoria1 := st.fvg_memoria.filter (fun g => !detectarInversionFvg df_m1 g)
    let ifvgMemoria1 := st.ifvg_memoria ++ ifvgDetectados
    let st' : Estado :=
      { st with fvg_memoria := fvgDetectados.take 3 ++ fvgMemoria1.take 5,
                ifvg_memoria := ifvgDetectados.take 3 ++ ifvgMemoria1.take 5 }
    (evaluarEntrada cfg reciente (st'.fvg_memoria ++ st'.ifvg_memoria), st')

/-- A completed signal after `_calcular_niveles_y_lote` updates the dict. -/
structure SenalCompleta where
  direccion : Direccion
  precio_entrada : ℚ
  stop_loss : ℚ
  timestamp : ℚ
  tipo_oportunidad : TipoGap
  take_profit : ℚ
  distancia_sl : ℚ
  rr_ratio : ℚ
  tamano_lote : ℚ
  tipo_entrada : TipoGap
  deriving DecidableEq, Repr

/-- Python's `round(x, 2)`: round to 2 decimals, ties to the even hundredth. -/
def redondear2 (x : ℚ) : ℚ :=
  let y := x * 100
  let f := ⌊y⌋
  let n := if y - f < 1/2 then f else if 1/2 < y - f then f + 1
           else if f % 2 = 0 then f else f + 1
  (n : ℚ) / 100

/-- `_calcular_niveles_y_lote`: `None` when the stop distance is zero, else
the signal completed with take-profit, pip-based lot size and metadata. -/
def calcularNivelesYLote (cfg : Config) (senal : Senal) : Option SenalCompleta :=
  let sl := |senal.precio_entrada - senal.stop_loss|
  if sl = 0 then none
  else
    let tp := if senal.direccion = .compra then senal.precio_entrada + cfg.RR * sl
              else senal.precio_entrada - cfg.RR * sl
    let slPips := sl * 10000
    let lote := max (1/100)
      (redondear2 ((cfg.CUENTA_INICIAL * cfg.RIESGO_POR_OPERACION) / (slPips * cfg.VALOR_POR_PIP)))
    some { direccion := senal.direccion, precio_entrada := senal.precio_entrada,
           stop_loss := senal.stop_loss, timestamp := senal.timestamp,
           tipo_oportunidad := senal.tipo_oportunidad, take_profit := tp,
           distancia_sl := sl, rr_ratio := cfg.RR, tamano_lote := lote,
           tipo_entrada := senal.tipo_oportunidad }

/-- `analizar_mercado`: session filtering, bias, gap/entry search, risk
sizing.  TOML audit writes are I/O and not modelled; the returned pair is
(optional completed signal, engine state after the call). -/
def analizarMercado (cfg : Config) (st : Estado) (df_m15 df_m1 : List Vela) :
    Option SenalCompleta × Estado :=
  let f15 := filtrarSesionNy cfg df_m15
  let f1 := filtrarSesionNy cfg df_m1
  if f15.isEmpty || f1.isEmpty then (none, st)
  else
    let r := determinarSesgoM15 cfg st.ultimo_sesgo_valido f15
    let st1 : Estado := { st with ultimo_sesgo_valido := r.2.2 }
    match r.1 with
    | none => (none, st1)
    | some sesgo =>
      let b := buscarFvgYEntradaM1 cfg st1 f1 sesgo
      match b.1 with
      | none => (none, b.2)
      | some senal =>
        match calcularNivelesYLote cfg senal with
        | none => (none, b.2)
        | some completa => (some completa, b.2)

/-- Outcome label of a recorded operation. -/
inductive Resultado where
  | ganancia
  | perdida
  | pendiente
  deriving DecidableEq, Repr

/-- An operation record as stored by `registrar_operacion` (the fields
`obtener_estadisticas` reads; `tipo_entrada` is always present there because
registration fills the `"fvg"` default, and a missing `razon_entrada` reads
as the empty string). -/
structure Operacion where
  resultado : Resultado
  distancia_sl : ℚ
  tipo_entrada : TipoGap
  razon_entrada : String
  deriving DecidableEq, Repr

/-- `registrar_operacion`: append-only ledger update. -/
def registrarOperacion (ops : List Operacion) (op : Operacion) : List Operacion :=
  ops ++ [op]

/-- Python's `"CE" in razon`: substring search for `CE`. -/
def tieneCE : List Char → Bool
  | [] => false
  | c :: rest => (c = 'C' && (rest.head?.elim false (fun d => d = 'E'))) || tieneCE rest

/-- `"CE" in op.get("razon_entrada", "")`. -/
def razonConCE (op : Operacion) : Bool :=
  tieneCE op.razon_entrada.toList

/-- The statistics summary returned by `obtener_estadisticas` on a nonempty
ledger; `profit_factor = none` models the `float("inf")` no-loss case. -/
structure Estadisticas where
  total_operaciones : ℕ
  ganadas : ℕ
  perdidas : ℕ
  win_rate : ℚ
  profit_factor : Option ℚ
  operaciones_fvg : ℕ
  operaciones_ifvg : ℕ
  operaciones_ce : ℕ
  deriving DecidableEq, Repr

/-- `obtener_estadisticas`; `none` models the `{"total_operaciones": 0}`
short-circuit on an empty ledger. -/
def obtenerEstadisticas (cfg : Config) (ops : List Operacion) : Option Estadisticas :=
  match ops with
  | [] => none
  | _ :: _ =>
    let total := ops.length
    let ganadas := ops.countP (fun op => decide (op.resultado = .ganancia))
    let perdidas := total - ganadas
    let winRate := ((ganadas : ℚ) / (total : ℚ)) * 100
    let gananciaFvg := ((ops.filter (fun op =>
      decide (op.resultado = .ganancia) && decide (op.tipo_entrada = .fvg))).map
        (fun op => op.distancia_sl * cfg.RR)).sum
    let perdidaFvg := ((ops.filter (fun op =>
      decide (op.resultado = .perdida) && decide (op.tipo_entrada = .fvg))).map
        Operacion.distancia_sl).sum
    let gananciaIfvg := ((ops.filter (fun op =>
      decide (op.resultado = .ganancia) && decide (op.tipo_entrada = .ifvg))).map
        (fun op => op.distancia_sl * cfg.RR)).sum
    let perdidaIfvg := ((ops.filter (fun op =>
      decide (op.resultado = .perdida) && decide (op.tipo_entrada = .ifvg))).map
        Operacion.distancia_sl).sum
    let gananciaCe := ((ops.filter (fun op =>
      decide (op.resultado = .ganancia) && razonConCE op)).map
        (fun op => op.distancia_sl * cfg.RR)).sum
    let perdidaCe := ((ops.filter (fun op =>
      decide (op.resultado = .perdida) && razonConCE op)).map
        Operacion.distancia_sl).sum
    let gananciaTotal := gananciaFvg + gananciaIfvg + gananciaCe
    let perdidaTotal := perdidaFvg + perdidaIfvg + perdidaCe
    let pf := if 0 < perdidaTotal then some (gananciaTotal / perdidaTotal) else none
    some { total_operaciones := total, ganadas := ganadas, perdidas := perdidas,
           win_rate := winRate, profit_factor := pf,
           operaciones_fvg := ops.countP (fun op => decide (op.tipo_entrada = .fvg)),
           operaciones_ifvg := ops.countP (fun op => decide (op.tipo_entrada = .ifvg)),
           operaciones_ce := ops.countP razonConCE }

/-- The default configuration values read by `__init__` via `config.get`
(session times as minutes of the New-York day: 12:00 and 16:00). -/
def cfgDefecto : Config :=
  { TOLERANCIA_MITIGACION := 15/1000, CUENTA_INICIAL := 10000,
    RIESGO_POR_OPERACION := 1/100, RR := 2, VALOR_POR_PIP := 10,
    MIN_VELAS_M15 := 20, MIN_VELAS_M1 := 50, USAR_FILTRO_SESION := false,
    SESION_INICIO := 720, SESION_FIN := 960, ATR_PERIODO := 14,
    FVG_MIN_PCT_ATR := 1/10, UMBRAL_SESION := 2/10000,
    RANGO_MINIMO_VELA := 3/10000 }

/-- The fresh engine state set up by `__init__`. -/
def estadoInicial : Estado :=
  { fvg_memoria := [], ifvg_memoria := [], ultimo_sesgo_valido := none }

/-! ### Helper lemmas about the embedded operations -/

lemma buscar_eq_of_lt (cfg : Config) (st : Estado) (df : List Vela) (sesgo : Sesgo)
    (h : df.length < 5) : buscarFvgYEntradaM1 cfg st df sesgo = (none, st) := by
  simp [buscarFvgYEntradaM1, h]

lemma buscar_estado_eq (cfg : Config) (st : Estado) (df : List Vela) (sesgo : Sesgo)
    (h : ¬ df.length < 5) :
    (buscarFvgYEntradaM1 cfg st df sesgo).2 =
      { st with
        fvg_memoria := (detectarFvgs cfg sesgo df (atrActual cfg df)).take 3 ++
          (st.fvg_memoria.filter (fun g => !detectarInversionFvg df g)).take 5,
        ifvg_memoria :=
          ((st.fvg_memoria.filter (fun g => detectarInversionFvg df g)).map aIfvg).take 3 ++
          (st.ifvg_memoria ++
            (st.fvg_memoria.filter (fun g => detectarInversionFvg df g)).map aIfvg).take 5 } := by
  simp [buscarFvgYEntradaM1, h]

lemma buscar_ultimo_eq (cfg : Config) (st : Estado) (df : List Vela) (sesgo : Sesgo) :
    (buscarFvgYEntradaM1 cfg st df sesgo).2.ultimo_sesgo_valido = st.ultimo_sesgo_valido := by
  by_cases h : df.length < 5
  · rw [buscar_eq_of_lt cfg st df sesgo h]
  · rw [buscar_estado_eq cfg st df sesgo h]

lemma buscar_senal_no_corto (cfg : Config) (st : Estado) (df : List Vela) (sesgo : Sesgo)
    (s : Senal) (h : (buscarFvgYEntradaM1 cfg st df sesgo).1 = some s) : ¬ df.length < 5 := by
  intro hlt
  rw [buscar_eq_of_lt cfg st df sesgo hlt] at h
  exact Option.noConfusion h

lemma analizar_estado_cases (cfg : Config) (st : Estado) (m15 m1 : List Vela) :
    (analizarMercado cfg st m15 m1).2 = st
    ∨ (analizarMercado cfg st m15 m1).2 =
        { st with ultimo_sesgo_valido :=
            (determinarSesgoM15 cfg st.ultimo_sesgo_valido (filtrarSesionNy cfg m15)).2.2 }
    ∨ (∃ sesgo,
        (determinarSesgoM15 cfg st.ultimo_sesgo_valido (filtrarSesionNy cfg m15)).1 = some sesgo ∧
        ¬ (filtrarSesionNy cfg m1).length < 5 ∧
        (analizarMercado cfg st m15 m1).2 =
          (buscarFvgYEntradaM1 cfg
            { st with ultimo_sesgo_valido :=
                (determinarSesgoM15 cfg st.ultimo_sesgo_valido (filtrarSesionNy cfg m15)).2.2 }
            (filtrarSesionNy cfg m1) sesgo).2) := by
  by_cases hg : ((filtrarSesionNy cfg m15).isEmpty || (filtrarSesionNy cfg m1).isEmpty) = true
  · left; simp [analizarMercado, hg]
  · rcases hr : (determinarSesgoM15 cfg st.ultimo_sesgo_valido (filtrarSesionNy cfg m15)).1 with _ | sesgo
    · right; left; simp [analizarMercado, hg, hr]
    · by_cases hl : (filtrarSesionNy cfg m1).length < 5
      · right; left
        have hb := buscar_eq_of_lt cfg
          { st with ultimo_sesgo_valido :=
              (determinarSesgoM15 cfg st.ultimo_sesgo_valido (filtrarSesionNy cfg m15)).2.2 }
          (filtrarSesionNy cfg m1) sesgo hl
        simp [analizarMercado, hg, hr, hb]
      · right; right
        refine ⟨sesgo, by simp [hr], hl, ?_⟩
        rcases hb : (buscarFvgYEntradaM1 cfg
            { st with ultimo_sesgo_valido :=
                (determinarSesgoM15 cfg st.ultimo_sesgo_valido (filtrarSesionNy cfg m15)).2.2 }
            (filtrarSesionNy cfg m1) sesgo).1 with _ | s
        · simp [analizarMercado, hg, hr, hb]
        · rcases hc : calcularNivelesYLote cfg s with _ | c
          · simp [analizarMercado, hg, hr, hb, hc]
          · simp [analizarMercado, hg, hr, hb, hc]

lemma determinar_ultimo_cases (cfg : Config) (u : Option Sesgo) (df : List Vela) :
    (determinarSesgoM15 cfg u df).2.2 = u
    ∨ (determinarSesgoM15 cfg u df).2.2 = some .alcista
    ∨ (determinarSesgoM15 cfg u df).2.2 = some .bajista := by
  rcases u with _ | s <;> simp only [determinarSesgoM15] <;> split_ifs <;> simp

/-- C4: after any single `analizar_mercado` call, starting from memories of at
most 8 entries, both gap memories still have at most 8 entries (the update
`fvg_detectados[:3] + memoria[:5]` is bounded by 3 + 5; every other path
leaves the memories unchanged). -/
theorem C4_memorias_acotadas (cfg : Config) (st : Estado) (m15 m1 : List Vela)
    (hf : st.fvg_memoria.length ≤ 8) (hi : st.ifvg_memoria.length ≤ 8) :
    (analizarMercado cfg st m15 m1).2.fvg_memoria.length ≤ 8 ∧
    (analizarMercado cfg st m15 m1).2.ifvg_memoria.length ≤ 8 := by
  rcases analizar_estado_cases cfg st m15 m1 with h | h | ⟨sesgo, _, hl, h⟩
  · rw [h]; exact ⟨hf, hi⟩
  · rw [h]; exact ⟨hf, hi⟩
  · rw [h, buscar_estado_eq _ _ _ _ hl]
    constructor
    · simp only [List.length_append, List.length_take]
      omega
    · simp only [List.length_append, List.length_take]
      omega

/-- Witness for C4 at a concrete engine state and input. -/
theorem C4_memorias_acotadas_witness :
    (analizarMercado cfgDefecto estadoInicial [] []).2.fvg_memoria.length ≤ 8 ∧
    (analizarMercado cfgDefecto estadoInicial [] []).2.ifvg_memoria.length ≤ 8 :=
  C4_memorias_acotadas cfgDefecto estadoInicial [] [] (by decide) (by decide)

/-- C8: the persisted last-valid-bias never reverts to `None` once it is
bullish or bearish, and after any call it is either unchanged or one of the
two directional values (the only writes in `_determinar_sesgo_m15` assign
`"alcista"` or `"bajista"`, and no other code touches it). -/
theorem C8_sesgo_persistente (cfg : Config) (st : Estado) (m15 m1 : List Vela)
    (h : st.ultimo_sesgo_valido ≠ none) :
    (analizarMercado cfg st m15 m1).2.ultimo_sesgo_valido ≠ none ∧
    ((analizarMercado cfg st m15 m1).2.ultimo_sesgo_valido = st.ultimo_sesgo_valido ∨
     (analizarMercado cfg st m15 m1).2.ultimo_sesgo_valido = some .alcista ∨
     (analizarMercado cfg st m15 m1).2.ultimo_sesgo_valido = some .bajista) := by
  have hu : (analizarMercado cfg st m15 m1).2.ultimo_sesgo_valido = st.ultimo_sesgo_valido ∨
      (analizarMercado cfg st m15 m1).2.ultimo_sesgo_valido =
        (determinarSesgoM15 cfg st.ultimo_sesgo_valido (filtrarSesionNy cfg m15)).2.2 := by
    rcases analizar_estado_cases cfg st m15 m1 with h1 | h1 | ⟨sesgo, _, hl, h1⟩
    · exact Or.inl (by rw [h1])
    · exact Or.inr (by rw [h1])
    · right; rw [h1, buscar_ultimo_eq]
  rcases hu with hu | hu
  · rw [hu]; exact ⟨h, Or.inl rfl⟩
  · rcases determinar_ultimo_cases cfg st.ultimo_sesgo_valido (filtrarSesionNy cfg m15) with
      hd | hd | hd
    · rw [hu, hd]; exact ⟨h, Or.inl rfl⟩
    · rw [hu, hd]; exact ⟨by simp, Or.inr (Or.inl rfl)⟩
    · rw [hu, hd]; exact ⟨by simp, Or.inr (Or.inr rfl)⟩

/-- Witness for C8 on a state whose persisted bias is already bullish. -/
theorem C8_sesgo_persistente_witness :
    (analizarMercado cfgDefecto
        { fvg_memoria := [], ifvg_memoria := [], ultimo_sesgo_valido := some .alcista }
        [] []).2.ultimo_sesgo_valido ≠ none :=
  (C8_sesgo_persistente cfgDefecto
    { fvg_memoria := [], ifvg_memoria := [], ultimo_sesgo_valido := some .alcista }
    [] [] (by decide)).1

/-- C10: when the filtered M1 series is nonempty but shorter than 5 candles,
`analizar_mercado` returns no signal and leaves both gap memories exactly as
they were (`_buscar_fvg_y_entrada_m1` returns before the memory update, and
the other early exits never touch the memories). -/
theorem C10_m1_corto_sin_efecto (cfg : Config) (st : Estado) (m15 m1 : List Vela)
    (h0 : filtrarSesionNy cfg m1 ≠ [])
    (h5 : (filtrarSesionNy cfg m1).length < 5) :
    (analizarMercado cfg st m15 m1).1 = none ∧
    (analizarMercado cfg st m15 m1).2.fvg_memoria = st.fvg_memoria ∧
    (analizarMercado cfg st m15 m1).2.ifvg_memoria = st.ifvg_memoria := by
  by_cases hg : ((filtrarSesionNy cfg m15).isEmpty || (filtrarSesionNy cfg m1).isEmpty) = true
  · simp [analizarMercado, hg]
  · rcases hr : (determinarSesgoM15 cfg st.ultimo_sesgo_valido (filtrarSesionNy cfg m15)).1 with
      _ | sesgo
    · simp [analizarMercado, hg, hr]
    · have hb := buscar_eq_of_lt cfg
        { st with ultimo_sesgo_valido :=
            (determinarSesgoM15 cfg st.ultimo_sesgo_valido (filtrarSesionNy cfg m15)).2.2 }
        (filtrarSesionNy cfg m1) sesgo h5
      simp [analizarMercado, hg, hr, hb]

/-- Witness for C10 on a three-candle M1 input. -/
theorem C10_m1_corto_sin_efecto_witness :
    (analizarMercado cfgDefecto estadoInicial [] [velaCero, velaCero, velaCero]).1 = none ∧
    (analizarMercado cfgDefecto estadoInicial [] [velaCero, velaCero, velaCero]).2.fvg_memoria =
      estadoInicial.fvg_memoria ∧
    (analizarMercado cfgDefecto estadoInicial [] [velaCero, velaCero, velaCero]).2.ifvg_memoria =
      estadoInicial.ifvg_memoria :=
  C10_m1_corto_sin_efecto cfgDefecto estadoInicial [] [velaCero, velaCero, velaCero]
    (by decide) (by decide)

lemma le_foldl_max (l : List Vela) (a : ℚ) :
    a ≤ l.foldl (fun x w => max x w.high) a := by
  induction l generalizing a with
  | nil => exact le_refl a
  | cons w l ih => exact le_trans (le_max_left a w.high) (ih (max a w.high))

lemma foldl_min_le (l : List Vela) (a : ℚ) :
    l.foldl (fun x w => min x w.low) a ≤ a := by
  induction l generalizing a with
  | nil => exact le_refl a
  | cons w l ih => exact le_trans (ih (min a w.low)) (min_le_left a w.low)

lemma minLow_le_maxHigh (v : Vela) (vs : List Vela) (hwf : v.low ≤ v.high) :
    minLow (v :: vs) ≤ maxHigh (v :: vs) :=
  le_trans (foldl_min_le vs v.low) (le_trans hwf (le_foldl_max vs v.high))

/-- C5: on a window meeting the minimum length, a last close strictly above
the trailing window's maximum high yields bullish bias, reference level
`swing_high`, and persists `"alcista"`; a last close strictly below the
window's minimum low yields bearish bias, reference `swing_low`, and persists
`"bajista"`.  Candles are required to be well-formed (`low ≤ high`), which
rules out the vacuous overlap of the two hard-break conditions. -/
theorem C5_sesgo_ruptura (cfg : Config) (ultimo : Option Sesgo) (df : List Vela)
    (hlen : cfg.MIN_VELAS_M15 ≤ df.length)
    (hwf : ∀ v ∈ df, v.low ≤ v.high) :
    (maxHigh (colaVentana cfg.MIN_VELAS_M15 df) <
        lastClose (colaVentana cfg.MIN_VELAS_M15 df) →
      determinarSesgoM15 cfg ultimo df =
        (some .alcista, some (maxHigh (colaVentana cfg.MIN_VELAS_M15 df)), some .alcista)) ∧
    (lastClose (colaVentana cfg.MIN_VELAS_M15 df) <
        minLow (colaVentana cfg.MIN_VELAS_M15 df) →
      determinarSesgoM15 cfg ultimo df =
        (some .bajista, some (minLow (colaVentana cfg.MIN_VELAS_M15 df)), some .bajista)) := by
  have hnl : ¬ df.length < cfg.MIN_VELAS_M15 := not_lt.mpr hlen
  constructor
  · intro hbull
    simp [determinarSesgoM15, hnl, hbull]
  · intro hbear
    have hnb : ¬ maxHigh (colaVentana cfg.MIN_VELAS_M15 df) <
        lastClose (colaVentana cfg.MIN_VELAS_M15 df) := by
      rcases hv : colaVentana cfg.MIN_VELAS_M15 df with _ | ⟨v, vs⟩
      · rw [hv] at hbear
        simp [lastClose, minLow] at hbear
      · have hmem : v ∈ df := by
          have : v ∈ colaVentana cfg.MIN_VELAS_M15 df := by rw [hv]; exact List.mem_cons_self v vs
          exact List.drop_subset _ df this
        have hml := minLow_le_maxHigh v vs (hwf v hmem)
        rw [hv] at hbear
        intro hlt
        exact absurd (lt_trans hbear (lt_of_le_of_lt hml hlt)) (lt_irrefl _)
    simp [determinarSesgoM15, hnl, hnb, hbear]

/-- Witness for C5: a bullish hard break on a one-candle window and a bearish
hard break on another. -/
theorem C5_sesgo_ruptura_witness :
    determinarSesgoM15 { cfgDefecto with MIN_VELAS_M15 := 1 } none
        [{ time := 0, high := 1, low := 0, close := 2 }] =
      (some .alcista, some 1, some .alcista) ∧
    determinarSesgoM15 { cfgDefecto with MIN_VELAS_M15 := 1 } none
        [{ time := 0, high := 5, low := 3, close := 2 }] =
      (some .bajista, some 3, some .bajista) :=
  ⟨(C5_sesgo_ruptura { cfgDefecto with MIN_VELAS_M15 := 1 } none
      [{ time := 0, high := 1, low := 0, close := 2 }] (by decide)
      (by intro v hv; simp at hv; rw [hv]; decide)).1 (by decide),
   (C5_sesgo_ruptura { cfgDefecto with MIN_VELAS_M15 := 1 } none
      [{ time := 0, high := 5, low := 3, close := 2 }] (by decide)
      (by intro v hv; simp at hv; rw [hv]; decide)).2 (by decide)⟩

/-- C7: a completed signal has its take-profit at `entry ± RR × stop distance`
on the strict side matching its direction (for a positive reward:risk ratio,
default 2), and a position size of at least 0.01 lots. -/
theorem C7_take_profit_y_lote (cfg : Config) (senal : Senal) (completa : SenalCompleta)
    (hRR : 0 < cfg.RR) (h : calcularNivelesYLote cfg senal = some completa) :
    (completa.direccion = .compra →
      completa.take_profit = completa.precio_entrada + cfg.RR * completa.distancia_sl ∧
      completa.precio_entrada < completa.take_profit) ∧
    (completa.direccion = .venta →
      completa.take_profit = completa.precio_entrada - cfg.RR * completa.distancia_sl ∧
      completa.take_profit < completa.precio_entrada) ∧
    1/100 ≤ completa.tamano_lote := by
  rw [calcularNivelesYLote] at h
  by_cases hsl : |senal.precio_entrada - senal.stop_loss| = 0
  · simp [hsl] at h
  · have hpos : 0 < |senal.precio_entrada - senal.stop_loss| :=
      lt_of_le_of_ne (abs_nonneg _) (Ne.symm hsl)
    have hmul : 0 < cfg.RR * |senal.precio_entrada - senal.stop_loss| := mul_pos hRR hpos
    simp only [hsl, if_false, Option.some.injEq] at h
    subst h
    refine ⟨?_, ?_, le_max_left _ _⟩
    · intro hdir
      simp only at hdir
      simp only [hdir, if_pos]
      exact ⟨trivial, by linarith⟩
    · intro hdir
      simp only at hdir
      have hne : ¬ senal.direccion = Direccion.compra := by rw [hdir]; intro hc; cases hc
      simp only [hne, if_false]
      exact ⟨trivial, by linarith⟩

/-- Witness for C7: the spec's Scenario 4 (entry 1.2010, stop 1.2000,
balance 10000, risk 1%, pip value 10, RR 2). -/
theorem C7_take_profit_y_lote_witness :
    0 < cfgDefecto.RR ∧
    (calcularNivelesYLote cfgDefecto
        { direccion := .compra, precio_entrada := 12010/10000, stop_loss := 12000/10000,
          timestamp := 0, tipo_oportunidad := .fvg } =
      some { direccion := .compra, precio_entrada := 12010/10000, stop_loss := 12000/10000,
             timestamp := 0, tipo_oportunidad := .fvg, take_profit := 12030/10000,
             distancia_sl := 1/1000, rr_ratio := 2, tamano_lote := 1,
             tipo_entrada := .fvg }) ∧
    1/100 ≤ (1 : ℚ) :=
  ⟨by decide, by with_unfolding_all decide,
    (C7_take_profit_y_lote cfgDefecto
      { direccion := .compra, precio_entrada := 12010/10000, stop_loss := 12000/10000,
        timestamp := 0, tipo_oportunidad := .fvg }
      { direccion := .compra, precio_entrada := 12010/10000, stop_loss := 12000/10000,
        timestamp := 0, tipo_oportunidad := .fvg, take_profit := 12030/10000,
        distancia_sl := 1/1000, rr_ratio := 2, tamano_lote := 1, tipo_entrada := .fvg }
      (by decide) (by with_unfolding_all decide)).2.2⟩

/-- Configuration with a one-candle higher-timeframe window, for witnesses. -/
def cfgMin1 : Config := { cfgDefecto with MIN_VELAS_M15 := 1 }

/-- One bullish-hard-break higher-timeframe candle. -/
def m15Alcista : List Vela := [{ time := 0, high := 1, low := 0, close := 2 }]

/-- M1 witness candle: high 2, low and close 3/2. -/
def velaM1 (t : ℚ) : Vela := { time := t, high := 2, low := 3/2, close := 3/2 }

/-- Five M1 witness candles (no 3-candle scan happens at length 5). -/
def m1Cinco : List Vela := [velaM1 1, velaM1 2, velaM1 3, velaM1 4, velaM1 5]

/-- A remembered buy gap whose stop anchor coincides with the entry close,
producing a zero stop distance. -/
def gapStopIgual : FVG :=
  { direccion := .compra, fvg_alto := 2, fvg_bajo := 1, stop_loss := 3/2,
    indice := 0, timestamp := 0, tipo := .fvg }

/-- C6: when the partial signal reaching the risk sizer has entry equal to
stop, `_calcular_niveles_y_lote` returns `None` (the `InvalidSignal` case)
and the enclosing `analizar_mercado` call returns no signal. -/
theorem C6_distancia_cero_invalida (cfg : Config) (st : Estado) (m15 m1 : List Vela)
    (sesgo : Sesgo) (lvl : Option ℚ) (u' : Option Sesgo) (s : Senal)
    (h15 : (filtrarSesionNy cfg m15).isEmpty = false)
    (h1 : (filtrarSesionNy cfg m1).isEmpty = false)
    (hs : determinarSesgoM15 cfg st.ultimo_sesgo_valido (filtrarSesionNy cfg m15) =
      (some sesgo, lvl, u'))
    (hb : (buscarFvgYEntradaM1 cfg { st with ultimo_sesgo_valido := u' }
      (filtrarSesionNy cfg m1) sesgo).1 = some s)
    (h0 : s.precio_entrada = s.stop_loss) :
    calcularNivelesYLote cfg s = none ∧ (analizarMercado cfg st m15 m1).1 = none := by
  have hc : calcularNivelesYLote cfg s = none := by
    simp [calcularNivelesYLote, h0]
  refine ⟨hc, ?_⟩
  simp [analizarMercado, h15, h1, hs, hb, hc]

/-- Witness for C6: a full pipeline run whose matched gap anchors the stop at
the entry close. -/
theorem C6_distancia_cero_invalida_witness :
    calcularNivelesYLote cfgMin1
        { direccion := .compra, precio_entrada := 3/2, stop_loss := 3/2,
          timestamp := 5, tipo_oportunidad := .fvg } = none ∧
    (analizarMercado cfgMin1
        { fvg_memoria := [gapStopIgual], ifvg_memoria := [], ultimo_sesgo_valido := none }
        m15Alcista m1Cinco).1 = none :=
  C6_distancia_cero_invalida cfgMin1
    { fvg_memoria := [gapStopIgual], ifvg_memoria := [], ultimo_sesgo_valido := none }
    m15Alcista m1Cinco .alcista (some 1) (some .alcista)
    { direccion := .compra, precio_entrada := 3/2, stop_loss := 3/2,
      timestamp := 5, tipo_oportunidad := .fvg }
    (by decide) (by decide) (by decide)
    (by with_unfolding_all decide) (by with_unfolding_all decide)

lemma evaluar_primero (cfg : Config) (r : Vela) (l : List FVG) (s : Senal)
    (h : evaluarEntrada cfg r l = some s) :
    ∃ pre g post, l = pre ++ g :: post ∧
      (∀ g' ∈ pre, coincideEntrada cfg r g' = false) ∧
      coincideEntrada cfg r g = true ∧ s = crearSenal r g g.direccion := by
  induction l with
  | nil => simp [evaluarEntrada] at h
  | cons g rest ih =>
    by_cases hc : coincideEntrada cfg r g = true
    · rw [evaluarEntrada, if_pos hc] at h
      exact ⟨[], g, rest, rfl, fun g' hg' => absurd hg' (List.not_mem_nil g'), hc,
        (Option.some.inj h).symm⟩
    · rw [evaluarEntrada, if_neg hc] at h
      obtain ⟨pre, g', post, hl, hpre, hcg, hs⟩ := ih h
      refine ⟨g :: pre, g', post, by simp [hl], ?_, hcg, hs⟩
      intro x hx
      rcases List.mem_cons.mp hx with hx | hx
      · rw [hx]; exact Bool.not_eq_true _ ▸ (by simpa using hc)
      · exact hpre x hx

/-- C1: the Entry Evaluator part of `_buscar_fvg_y_entrada_m1` returns at
most one partial signal (its result is an `Option`), and when it returns one
the matched opportunity is the FIRST entry of the combined list
`fvg_memoria + ifvg_memoria` (after the call's memory update) whose
full-mitigation / CE / proximity test fires: every earlier opportunity fails
the test and the returned signal is built from the matched one, so no later
opportunity is examined. -/
theorem C1_primera_oportunidad (cfg : Config) (st : Estado) (df : List Vela) (sesgo : Sesgo)
    (senal : Senal) (h : (buscarFvgYEntradaM1 cfg st df sesgo).1 = some senal) :
    ∃ pre g post,
      (buscarFvgYEntradaM1 cfg st df sesgo).2.fvg_memoria ++
        (buscarFvgYEntradaM1 cfg st df sesgo).2.ifvg_memoria = pre ++ g :: post ∧
      (∀ g' ∈ pre, coincideEntrada cfg ((df.getLast?).getD velaCero) g' = false) ∧
      coincideEntrada cfg ((df.getLast?).getD velaCero) g = true ∧
      senal = crearSenal ((df.getLast?).getD velaCero) g g.direccion := by
  have h5 := buscar_senal_no_corto cfg st df sesgo senal h
  have heq : (buscarFvgYEntradaM1 cfg st df sesgo).1 =
      evaluarEntrada cfg ((df.getLast?).getD velaCero)
        ((buscarFvgYEntradaM1 cfg st df sesgo).2.fvg_memoria ++
         (buscarFvgYEntradaM1 cfg st df sesgo).2.ifvg_memoria) := by
    rw [buscar_estado_eq cfg st df sesgo h5]
    simp [buscarFvgYEntradaM1, h5]
  rw [heq] at h
  exact evaluar_primero cfg _ _ senal h

/-- A remembered buy gap fully mitigated by the last witness candle. -/
def gapCompra : FVG :=
  { direccion := .compra, fvg_alto := 2, fvg_bajo := 1, stop_loss := 1/2,
    indice := 0, timestamp := 0, tipo := .fvg }

/-- Witness for C1: the remembered gap is matched by full mitigation on the
last of five M1 candles. -/
theorem C1_primera_oportunidad_witness :
    ∃ pre g post,
      (buscarFvgYEntradaM1 cfgMin1
          { fvg_memoria := [gapCompra], ifvg_memoria := [], ultimo_sesgo_valido := none }
          m1Cinco .alcista).2.fvg_memoria ++
        (buscarFvgYEntradaM1 cfgMin1
          { fvg_memoria := [gapCompra], ifvg_memoria := [], ultimo_sesgo_valido := none }
          m1Cinco .alcista).2.ifvg_memoria = pre ++ g :: post ∧
      (∀ g' ∈ pre, coincideEntrada cfgMin1 ((m1Cinco.getLast?).getD velaCero) g' = false) ∧
      coincideEntrada cfgMin1 ((m1Cinco.getLast?).getD velaCero) g = true ∧
      ({ direccion := .compra, precio_entrada := 3/2, stop_loss := 1/2,
         timestamp := 5, tipo_oportunidad := .fvg } : Senal) =
        crearSenal ((m1Cinco.getLast?).getD velaCero) g g.direccion :=
  C1_primera_oportunidad cfgMin1
    { fvg_memoria := [gapCompra], ifvg_memoria := [], ultimo_sesgo_valido := none }
    m1Cinco .alcista
    { direccion := .compra, precio_entrada := 3/2, stop_loss := 1/2,
      timestamp := 5, tipo_oportunidad := .fvg }
    (by with_unfolding_all decide)

/-- A pending operation record: outcome neither win nor loss. -/
def opPendiente : Operacion :=
  { resultado := .pendiente, distancia_sl := 1, tipo_entrada := .fvg, razon_entrada := "" }

/-- C3 counterexample: on a ledger holding one PENDING operation the code
reports `perdidas = total - ganadas = 1`, while the number of operations
whose outcome is loss is 0 — pending outcomes are counted as losses, so the
reported loss count is not the number of loss outcomes. -/
theorem C3_estadisticas_counterexample :
    Option.map Estadisticas.perdidas (obtenerEstadisticas cfgDefecto [opPendiente]) ≠
      some ([opPendiente].countP (fun op => decide (op.resultado = Resultado.perdida))) := by
  with_unfolding_all decide

lemma countP_total (l : List Operacion) (p : Operacion → Bool) :
    l.countP p + l.countP (fun a => !p a) = l.length := by
  induction l with
  | nil => simp
  | cons a l ih =>
    by_cases h : p a = true <;> simp [List.countP_cons, h, ← ih] <;> omega

/-- C3 amended: on a nonempty ledger, `obtener_estadisticas` reports a win
count equal to the number of operations with outcome win, a LOSS COUNT equal
to the number of operations whose outcome is NOT win (loss and pending are
both counted, since the code computes `total - ganadas`), and a win rate of
wins/total×100. -/
theorem C3_estadisticas_amended (cfg : Config) (ops : List Operacion) (stats : Estadisticas)
    (h : obtenerEstadisticas cfg ops = some stats) :
    stats.ganadas = ops.countP (fun op => decide (op.resultado = Resultado.ganancia)) ∧
    stats.perdidas = ops.countP (fun op => !decide (op.resultado = Resultado.ganancia)) ∧
    stats.win_rate =
      ((ops.countP (fun op => decide (op.resultado = Resultado.ganancia)) : ℚ) /
        (ops.length : ℚ)) * 100 := by
  rcases ops with _ | ⟨o, rest⟩
  · simp [obtenerEstadisticas] at h
  · simp only [obtenerEstadisticas, Option.some.injEq] at h
    subst h
    refine ⟨rfl, ?_, rfl⟩
    have := countP_total (o :: rest) (fun op => decide (op.resultado = Resultado.ganancia))
    simp only
    omega

/-- Witness for C3's amended statement on the one-pending-operation ledger. -/
theorem C3_estadisticas_amended_witness :
    obtenerEstadisticas cfgDefecto [opPendiente] =
      some { total_operaciones := 1, ganadas := 0, perdidas := 1, win_rate := 0,
             profit_factor := none, operaciones_fvg := 1, operaciones_ifvg := 0,
             operaciones_ce := 0 } ∧
    ({ total_operaciones := 1, ganadas := 0, perdidas := 1, win_rate := 0,
       profit_factor := none, operaciones_fvg := 1, operaciones_ifvg := 0,
       operaciones_ce := 0 } : Estadisticas).perdidas =
      [opPendiente].countP (fun op => !decide (op.resultado = Resultado.ganancia)) :=
  ⟨by with_unfolding_all decide,
   (C3_estadisticas_amended cfgDefecto [opPendiente] _ (by with_unfolding_all decide)).2.1⟩

lemma analizar_estado_buscar (cfg : Config) (st : Estado) (m15 m1 : List Vela)
    (sesgo : Sesgo) (lvl : Option ℚ) (u' : Option Sesgo)
    (h15 : (filtrarSesionNy cfg m15).isEmpty = false)
    (h1 : (filtrarSesionNy cfg m1).isEmpty = false)
    (hs : determinarSesgoM15 cfg st.ultimo_sesgo_valido (filtrarSesionNy cfg m15) =
      (some sesgo, lvl, u')) :
    (analizarMercado cfg st m15 m1).2 =
      (buscarFvgYEntradaM1 cfg { st with ultimo_sesgo_valido := u' }
        (filtrarSesionNy cfg m1) sesgo).2 := by
  rcases hb : (buscarFvgYEntradaM1 cfg { st with ultimo_sesgo_valido := u' }
      (filtrarSesionNy cfg m1) sesgo).1 with _ | s
  · simp [analizarMercado, h15, h1, hs, hb]
  · rcases hc : calcularNivelesYLote cfg s with _ | c
    · simp [analizarMercado, h15, h1, hs, hb, hc]
    · simp [analizarMercado, h15, h1, hs, hb, hc]

/-- A remembered buy gap later invalidated by closes below its lower bound. -/
def gapInv : FVG :=
  { direccion := .compra, fvg_alto := 2, fvg_bajo := 1, stop_loss := 1/2,
    indice := 0, timestamp := 0, tipo := .fvg }

/-- Five M1 candles all closing at 1/2, below `gapInv`'s lower bound 1. -/
def m1Inversion : List Vela :=
  [{ time := 1, high := 2, low := 0, close := 1/2 },
   { time := 2, high := 2, low := 0, close := 1/2 },
   { time := 3, high := 2, low := 0, close := 1/2 },
   { time := 4, high := 2, low := 0, close := 1/2 },
   { time := 5, high := 2, low := 0, close := 1/2 }]

/-- C2 counterexample: starting from plain-gap memory `[gapInv]` and EMPTY
inversion-gap memory, one `analizar_mercado` call that invalidates the gap
leaves the inversion-gap memory holding the SAME inverted gap twice — the
loop `self.ifvg_memoria.append(ifvg_info)` plus the later
`ifvg_detectados[:3] + self.ifvg_memoria[:5]` inserts it once through each
path, contradicting the claimed "newly found capped at 3 prepended to the
first 5 PRIOR entries, with no entry appearing twice" (which here would be
the one-element list). -/
theorem C2_memoria_ifvg_counterexample :
    (analizarMercado cfgMin1
        { fvg_memoria := [gapInv], ifvg_memoria := [], ultimo_sesgo_valido := none }
        m15Alcista m1Inversion).2.ifvg_memoria = [aIfvg gapInv, aIfvg gapInv] ∧
    ¬ (analizarMercado cfgMin1
        { fvg_memoria := [gapInv], ifvg_memoria := [], ultimo_sesgo_valido := none }
        m15Alcista m1Inversion).2.ifvg_memoria.Nodup := by
  constructor
  · with_unfolding_all decide
  · with_unfolding_all decide

/-- C2 amended: an invalidated gap is removed from the surviving prior
plain-gap memory, direction-flipped and marked as inversion-gap; the
resulting plain-gap memory is the newly detected gaps (capped at 3)
prepended to the first 5 surviving prior entries, and the resulting
INVERSION-gap memory is the newly found inversion gaps (capped at 3)
prepended to the first 5 entries of the prior inversion memory EXTENDED BY
the newly found inversion gaps — so an inverted gap can appear twice when
the prior inversion memory holds fewer than 5 entries. -/
theorem C2_inversion_memoria_amended (cfg : Config) (st : Estado) (m15 m1 : List Vela)
    (g : FVG) (sesgo : Sesgo) (lvl : Option ℚ) (u' : Option Sesgo)
    (h15 : (filtrarSesionNy cfg m15).isEmpty = false)
    (hs : determinarSesgoM15 cfg st.ultimo_sesgo_valido (filtrarSesionNy cfg m15) =
      (some sesgo, lvl, u'))
    (h5 : ¬ (filtrarSesionNy cfg m1).length < 5)
    (hg : g ∈ st.fvg_memoria)
    (hinv : detectarInversionFvg (filtrarSesionNy cfg m1) g = true) :
    aIfvg g ∈ (st.fvg_memoria.filter
      (fun x => detectarInversionFvg (filtrarSesionNy cfg m1) x)).map aIfvg ∧
    (aIfvg g).tipo = .ifvg ∧
    (aIfvg g).direccion = invertirDireccion g.direccion ∧
    g ∉ st.fvg_memoria.filter (fun x => !detectarInversionFvg (filtrarSesionNy cfg m1) x) ∧
    (analizarMercado cfg st m15 m1).2.fvg_memoria =
      (detectarFvgs cfg sesgo (filtrarSesionNy cfg m1)
          (atrActual cfg (filtrarSesionNy cfg m1))).take 3 ++
        (st.fvg_memoria.filter
          (fun x => !detectarInversionFvg (filtrarSesionNy cfg m1) x)).take 5 ∧
    (analizarMercado cfg st m15 m1).2.ifvg_memoria =
      ((st.fvg_memoria.filter
          (fun x => detectarInversionFvg (filtrarSesionNy cfg m1) x)).map aIfvg).take 3 ++
        (st.ifvg_memoria ++ (st.fvg_memoria.filter
          (fun x => detectarInversionFvg (filtrarSesionNy cfg m1) x)).map aIfvg).take 5 := by
  have h1 : (filtrarSesionNy cfg m1).isEmpty = false := by
    rcases hf : filtrarSesionNy cfg m1 with _ | ⟨v, vs⟩
    · rw [hf] at h5; simp at h5
    · simp
  have hst := analizar_estado_buscar cfg st m15 m1 sesgo lvl u' h15 h1 hs
  refine ⟨List.mem_map_of_mem aIfvg (List.mem_filter.mpr ⟨hg, hinv⟩), rfl, rfl, ?_, ?_, ?_⟩
  · intro hmem
    have hx := (List.mem_filter.mp hmem).2
    rw [hinv] at hx
    exact Bool.noConfusion hx
  · rw [hst, buscar_estado_eq _ _ _ _ h5]
  · rw [hst, buscar_estado_eq _ _ _ _ h5]

/-- Witness for C2's amended statement on the duplicate-producing input. -/
theorem C2_inversion_memoria_amended_witness :
    aIfvg gapInv ∈ (([gapInv] : List FVG).filter
      (fun x => detectarInversionFvg (filtrarSesionNy cfgMin1 m1Inversion) x)).map aIfvg ∧
    (aIfvg gapInv).tipo = .ifvg ∧
    (aIfvg gapInv).direccion = invertirDireccion gapInv.direccion ∧
    gapInv ∉ ([gapInv] : List FVG).filter
      (fun x => !detectarInversionFvg (filtrarSesionNy cfgMin1 m1Inversion) x) ∧
    (analizarMercado cfgMin1
        { fvg_memoria := [gapInv], ifvg_memoria := [], ultimo_sesgo_valido := none }
        m15Alcista m1Inversion).2.fvg_memoria =
      (detectarFvgs cfgMin1 .alcista (filtrarSesionNy cfgMin1 m1Inversion)
          (atrActual cfgMin1 (filtrarSesionNy cfgMin1 m1Inversion))).take 3 ++
        (([gapInv] : List FVG).filter
          (fun x => !detectarInversionFvg (filtrarSesionNy cfgMin1 m1Inversion) x)).take 5 ∧
    (analizarMercado cfgMin1
        { fvg_memoria := [gapInv], ifvg_memoria := [], ultimo_sesgo_valido := none }
        m15Alcista m1Inversion).2.ifvg_memoria =
      ((([gapInv] : List FVG).filter
          (fun x => detectarInversionFvg (filtrarSesionNy cfgMin1 m1Inversion) x)).map
            aIfvg).take 3 ++
        (([] : List FVG) ++ (([gapInv] : List FVG).filter
          (fun x => detectarInversionFvg (filtrarSesionNy cfgMin1 m1Inversion) x)).map
            aIfvg).take 5 :=
  C2_inversion_memoria_amended cfgMin1
    { fvg_memoria := [gapInv], ifvg_memoria := [], ultimo_sesgo_valido := none }
    m15Alcista m1Inversion gapInv .alcista (some 1) (some .alcista)
    (by decide) (by decide) (by decide) (by with_unfolding_all decide)
    (by with_unfolding_all decide)

lemma candidatoEn_cotas (cfg : Config) (sesgo : Sesgo) (df : List Vela)
    (i : ℕ) (g : FVG) (h : candidatoEn cfg sesgo df i = some g) :
    g.fvg_bajo < g.fvg_alto := by
  unfold candidatoEn at h
  repeat' split at h
  all_goals try exact Option.noConfusion h
  all_goals cases h
  all_goals assumption

lemma detectarEn_cotas (cfg : Config) (sesgo : Sesgo) (df : List Vela) (atr : ℚ)
    (i : ℕ) (g : FVG) (h : detectarEn cfg sesgo df atr i = some g) :
    g.fvg_bajo < g.fvg_alto := by
  unfold detectarEn at h
  rcases hc : candidatoEn cfg sesgo df i with _ | c <;> rw [hc] at h
  · exact Option.noConfusion h
  · by_cases hv : fvgValido cfg c atr = true
    · simp only [hv, if_true] at h
      obtain rfl := Option.some.inj h
      exact candidatoEn_cotas cfg sesgo df i c hc
    · simp [hv] at h

lemma detectarFvgs_cotas (cfg : Config) (sesgo : Sesgo) (df : List Vela) (atr : ℚ)
    (g : FVG) (h : g ∈ detectarFvgs cfg sesgo df atr) : g.fvg_bajo < g.fvg_alto := by
  obtain ⟨i, _, hi⟩ := List.mem_filterMap.mp h
  exact detectarEn_cotas cfg sesgo df atr i g hi

/-- C9: every gap held in the plain-gap memory or the inversion-gap memory
after one `analizar_mercado` call has `fvg_alto` strictly above `fvg_bajo`,
provided the memories satisfied this before the call (freshly detected gaps
obtain it from the strict detection inequalities, and inversion only flips
the direction and kind fields). -/
theorem C9_cotas_gap (cfg : Config) (st : Estado) (m15 m1 : List Vela)
    (hf : ∀ g ∈ st.fvg_memoria, g.fvg_bajo < g.fvg_alto)
    (hi : ∀ g ∈ st.ifvg_memoria, g.fvg_bajo < g.fvg_alto) :
    (∀ g ∈ (analizarMercado cfg st m15 m1).2.fvg_memoria, g.fvg_bajo < g.fvg_alto) ∧
    (∀ g ∈ (analizarMercado cfg st m15 m1).2.ifvg_memoria, g.fvg_bajo < g.fvg_alto) := by
  rcases analizar_estado_cases cfg st m15 m1 with h | h | ⟨sesgo, _, hl, h⟩
  · rw [h]; exact ⟨hf, hi⟩
  · rw [h]; exact ⟨hf, hi⟩
  · rw [h, buscar_estado_eq _ _ _ _ hl]
    constructor
    · intro g hg
      simp only [List.mem_append] at hg
      rcases hg with hg | hg
      · exact detectarFvgs_cotas _ _ _ _ g (List.take_subset _ _ hg)
      · exact hf g (List.mem_filter.mp (List.take_subset _ _ hg)).1
    · intro g hg
      simp only [List.mem_append] at hg
      rcases hg with hg | hg
      · obtain ⟨x, hx, rfl⟩ := List.mem_map.mp (List.take_subset _ _ hg)
        exact hf x (List.mem_filter.mp hx).1
      · rcases List.mem_append.mp (List.take_subset _ _ hg) with hm | hm
        · exact hi g hm
        · obtain ⟨x, hx, rfl⟩ := List.mem_map.mp hm
          exact hf x (List.mem_filter.mp hx).1

/-- Witness for C9 on a one-gap memory. -/
theorem C9_cotas_gap_witness :
    (∀ g ∈ (analizarMercado cfgMin1
        { fvg_memoria := [gapCompra], ifvg_memoria := [], ultimo_sesgo_valido := none }
        [] []).2.fvg_memoria, g.fvg_bajo < g.fvg_alto) ∧
    (∀ g ∈ (analizarMercado cfgMin1
        { fvg_memoria := [gapCompra], ifvg_memoria := [], ultimo_sesgo_valido := none }
        [] []).2.ifvg_memoria, g.fvg_bajo < g.fvg_alto) :=
  C9_cotas_gap cfgMin1
    { fvg_memoria := [gapCompra], ifvg_memoria := [], ultimo_sesgo_valido := none }
    [] [] (by decide) (by decide)

end NoddleTrader
